import Mathlib

/-!
Shallow embedding of the Login component (src/src/Login.js) of the
capstone real-time-chat repository.

The component holds two `useState` string fields (`username`, `password`),
renders two required text inputs keeping those fields controlled, and
exposes three handlers:
  - `handleLogin` (form onSubmit): calls `e.preventDefault()` and forwards
    the record `{ username, password }` (the `console.log` stands in for the
    external authentication collaborator per the spec);
  - `handleKakaoLogin` (button onClick): sets `window.location.href` to the
    fixed URL "http://localhost:8000/login/kakao";
  - the sign-up div's onClick, which calls the prop `onClickSignUp` with no
    arguments.

Handlers are embedded as functions from the component state to the list of
observable effects they emit, in order.  The browser's native required-field
validation (the `required` attribute on both inputs, Login.js lines 32 and
44) gates the submit handler: per the HTML constraint-validation semantics a
required text input is value-missing exactly when its value is the empty
string, so the submit handler runs iff both fields are non-empty.
-/

namespace Login

/-- Component-local field state: the two `useState` hooks of Login.js
lines 5-6. -/
structure LoginFormState where
  username : String
  password : String
deriving Repr, DecidableEq

/-- State on mount: both hooks are initialised with the empty string
(`useState('')`, Login.js lines 5-6). -/
def initState : LoginFormState := { username := "", password := "" }

/-- State updater bound to the username input's onChange (Login.js
line 29): replaces the username field unconditionally. -/
def setUsername (v : String) (s : LoginFormState) : LoginFormState :=
  { s with username := v }

/-- State updater bound to the password input's onChange (Login.js
line 41): replaces the password field unconditionally. -/
def setPassword (v : String) (s : LoginFormState) : LoginFormState :=
  { s with password := v }

/-- Observable effects the component's handlers can emit. -/
inductive Effect where
  /-- Call to `e.preventDefault()` (Login.js line 9): suppresses the
  default form-submission navigation. -/
  | preventDefault
  /-- Forwarding the record of the two field values to the external
  authentication collaborator (the `console.log` of Login.js line 10). -/
  | forwardAuth (username password : String)
  /-- Assignment to `window.location.href` (Login.js line 15): full
  browser navigation to the given URL. -/
  | navigate (url : String)
  /-- Call to the externally supplied zero-argument prop `onClickSignUp`
  (Login.js line 49). -/
  | signUpCallback
deriving Repr, DecidableEq

/-- Fixed identity-provider URL assigned by `handleKakaoLogin`
(Login.js line 15). -/
def kakaoLoginURL : String := "http://localhost:8000/login/kakao"

/-- Submit handler `handleLogin` (Login.js lines 8-12): first calls
`e.preventDefault()`, then forwards `{ username, password }` once. -/
def handleLogin (s : LoginFormState) : List Effect :=
  [Effect.preventDefault, Effect.forwardAuth s.username s.password]

/-- Handler `handleKakaoLogin` (Login.js lines 14-16): a single assignment
of the fixed URL to `window.location.href`; it reads no component state. -/
def handleKakaoLogin : List Effect :=
  [Effect.navigate kakaoLoginURL]

/-- Handler attached to the sign-up div's onClick (Login.js line 49): one
call to the supplied `onClickSignUp` callback, with no arguments. -/
def handleSignUpClick : List Effect :=
  [Effect.signUpCallback]

/-- HTML required-field validation for a required text input: the control
is value-missing (blocks submission) exactly when its value is the empty
string.  Both inputs carry the `required` attribute (Login.js lines 32
and 44). -/
def passesRequired (v : String) : Bool :=
  v ≠ ""

/-- The form passes native validation iff both required fields do. -/
def formValid (s : LoginFormState) : Bool :=
  passesRequired s.username && passesRequired s.password

/-- User-interface events the component can receive. -/
inductive Event where
  /-- A keystroke in the username input carrying new value v. -/
  | editUsername (v : String)
  /-- A keystroke in the password input carrying new value v. -/
  | editPassword (v : String)
  /-- A click on the submit button (form submission attempt). -/
  | clickSubmit
  /-- A click on the Kakao login button. -/
  | clickKakao
  /-- A click on the sign-up affordance. -/
  | clickSignUp
deriving Repr, DecidableEq

/-- One event step: the successor state and the effects emitted.  Edits go
through the onChange updaters; a submit click runs `handleLogin` only when
the form passes native required-field validation; the other clicks run
their handlers unconditionally. -/
def step (s : LoginFormState) (ev : Event) : LoginFormState × List Effect :=
  match ev with
  | Event.editUsername v => (setUsername v s, [])
  | Event.editPassword v => (setPassword v s, [])
  | Event.clickSubmit => if formValid s then (s, handleLogin s) else (s, [])
  | Event.clickKakao => (s, handleKakaoLogin)
  | Event.clickSignUp => (s, handleSignUpClick)

/-- Run a finite sequence of events from a state, collecting the emitted
effects in order. -/
def run (s : LoginFormState) (es : List Event) : LoginFormState × List Effect :=
  match es with
  | [] => (s, [])
  | e :: rest =>
    let p := step s e
    let q := run p.1 rest
    (q.1, p.2 ++ q.2)

/-- Recogniser for forwarding effects. -/
def isForwardAuth : Effect → Bool
  | Effect.forwardAuth _ _ => true
  | _ => false

/-- Recogniser for navigation effects. -/
def isNavigate : Effect → Bool
  | Effect.navigate _ => true
  | _ => false

/-- The submit handler is reached from state s on a submit click iff the
click emits any effect at all (the handler always emits). -/
def handlerReached (s : LoginFormState) : Bool :=
  (step s Event.clickSubmit).2 ≠ []

/-- Auxiliary: the state component of a run splits off its first event. -/
theorem run_cons_fst (s : LoginFormState) (e : Event) (es : List Event) :
    (run s (e :: es)).1 = (run (step s e).1 es).1 := rfl

/-- Auxiliary: the form passes native validation iff both fields are
non-empty strings. -/
theorem formValid_iff (s : LoginFormState) :
    formValid s = true ↔ (s.username ≠ "" ∧ s.password ≠ "") := by
  simp [formValid, passesRequired]

/-- Auxiliary: the submit handler runs on a submit click exactly when the
form passes native required-field validation. -/
theorem handlerReached_iff (s : LoginFormState) :
    handlerReached s = true ↔ (s.username ≠ "" ∧ s.password ≠ "") := by
  rw [← formValid_iff]
  simp only [handlerReached, step]
  by_cases h : formValid s = true
  · simp [h, handleLogin]
  · simp [h]

/-- Auxiliary: after a non-empty sequence of username edits, the username
field holds the last edited value. -/
theorem run_editUsername_getLast (s : LoginFormState) (vs : List String)
    (h : vs ≠ []) :
    ((run s (vs.map Event.editUsername)).1).username = vs.getLast h := by
  induction vs generalizing s with
  | nil => exact absurd rfl h
  | cons v rest ih =>
    cases rest with
    | nil => rfl
    | cons w ws =>
      rw [List.map_cons, run_cons_fst, List.getLast_cons_cons]
      exact ih (setUsername v s) (by simp)

/-- Auxiliary: after a non-empty sequence of password edits, the password
field holds the last edited value. -/
theorem run_editPassword_getLast (s : LoginFormState) (ws : List String)
    (h : ws ≠ []) :
    ((run s (ws.map Event.editPassword)).1).password = ws.getLast h := by
  induction ws generalizing s with
  | nil => exact absurd rfl h
  | cons v rest ih =>
    cases rest with
    | nil => rfl
    | cons w ws' =>
      rw [List.map_cons, run_cons_fst, List.getLast_cons_cons]
      exact ih (setPassword v s) (by simp)

/-- C1: when the submit handler runs with field state username = i and
password = s, it forwards the record of the two field values to the
external authentication collaborator exactly once, with the values passed
through verbatim. -/
theorem submit_forwards_once_verbatim (s : LoginFormState) :
    (handleLogin s).filter isForwardAuth =
      [Effect.forwardAuth s.username s.password] := rfl

/-- C2: along every finite sequence of edit and click events from the
mount state, a submit click reaches the submit handler iff both fields of
the resulting state are non-empty — blocked while either is empty,
reachable as soon as both are non-empty. -/
theorem submit_gated_along_every_sequence (es : List Event) :
    handlerReached (run initState es).1 = true ↔
      ((run initState es).1.username ≠ "" ∧
        (run initState es).1.password ≠ "") :=
  handlerReached_iff (run initState es).1

/-- C3: every invocation of the submit handler calls preventDefault
(suppressing the default form-submission navigation) and emits no
navigation effect, so no full-page reload occurs. -/
theorem submit_suppresses_navigation (s : LoginFormState) :
    Effect.preventDefault ∈ handleLogin s ∧
      (handleLogin s).filter isNavigate = [] := by
  simp [handleLogin, isNavigate]

/-- C4: for any two component states, a click on the identity-provider
button emits the same effects — exactly one navigation, to the single
fixed Kakao URL — independent of the field state. -/
theorem kakao_fixed_url (s₁ s₂ : LoginFormState) :
    (step s₁ Event.clickKakao).2 = (step s₂ Event.clickKakao).2 ∧
      (step s₁ Event.clickKakao).2 = [Effect.navigate kakaoLoginURL] :=
  ⟨rfl, rfl⟩

/-- C5: each click on the sign-up affordance invokes the externally
supplied zero-argument callback exactly once, regardless of the current
field state. -/
theorem signup_callback_once (s : LoginFormState) :
    (step s Event.clickSignUp).2 = [Effect.signUpCallback] := rfl

/-- C6: for every non-empty finite sequence of identifier-field edits, the
field value afterwards equals exactly the last value passed to the
updater, with no transformation; and likewise for the secret field. -/
theorem edits_last_write_wins (s : LoginFormState) (vs ws : List String)
    (h1 : vs ≠ []) (h2 : ws ≠ []) :
    ((run s (vs.map Event.editUsername)).1).username = vs.getLast h1 ∧
      ((run s (ws.map Event.editPassword)).1).password = ws.getLast h2 :=
  ⟨run_editUsername_getLast s vs h1, run_editPassword_getLast s ws h2⟩

/-- Witness for C6 at the concrete edit sequences ["a", "b"] and ["p"]. -/
theorem edits_last_write_wins_witness :
    (["a", "b"] : List String) ≠ [] ∧ (["p"] : List String) ≠ [] ∧
      ((run initState (List.map Event.editUsername ["a", "b"])).1).username =
        (["a", "b"] : List String).getLast (by simp) ∧
      ((run initState (List.map Event.editPassword ["p"])).1).password =
        (["p"] : List String).getLast (by simp) :=
  ⟨by simp, by simp,
    (edits_last_write_wins initState ["a", "b"] ["p"] (by simp) (by simp)).1,
    (edits_last_write_wins initState ["a", "b"] ["p"] (by simp) (by simp)).2⟩

/-- C7: on mount both fields of the component state are initialised to the
empty string. -/
theorem initial_state_empty :
    initState.username = "" ∧ initState.password = "" := ⟨rfl, rfl⟩

/-- C8: the two fields are independent — updating the username leaves the
password unchanged, and updating the password leaves the username
unchanged, for every state and every new value. -/
theorem fields_independent (s : LoginFormState) (v : String) :
    (setUsername v s).password = s.password ∧
      (setPassword v s).username = s.username :=
  ⟨rfl, rfl⟩

/-- C9: a submit click leaves the component state unchanged — the form
neither clears nor modifies the fields on submission. -/
theorem submit_preserves_state (s : LoginFormState) :
    (step s Event.clickSubmit).1 = s := by
  simp only [step]
  split <;> rfl

/-- C10: required-field validation rejects only the exact empty string:
whitespace-only field values count as non-empty, the submit handler is
reached, and the whitespace-only values are forwarded verbatim with no
trimming. -/
theorem whitespace_passes_required (i p : String)
    (hwi : i.data.all Char.isWhitespace = true)
    (hwp : p.data.all Char.isWhitespace = true)
    (hi : i ≠ "") (hp : p ≠ "") :
    handlerReached ⟨i, p⟩ = true ∧
      ((step (⟨i, p⟩ : LoginFormState) Event.clickSubmit).2.filter isForwardAuth =
        [Effect.forwardAuth i p]) := by
  have hv : formValid ⟨i, p⟩ = true := (formValid_iff ⟨i, p⟩).mpr ⟨hi, hp⟩
  refine ⟨(handlerReached_iff ⟨i, p⟩).mpr ⟨hi, hp⟩, ?_⟩
  simp [step, hv, handleLogin, isForwardAuth]

/-- Witness for C10 at the concrete whitespace-only values " " and " ". -/
theorem whitespace_passes_required_witness :
    (" " : String).data.all Char.isWhitespace = true ∧
      (" " : String).data.all Char.isWhitespace = true ∧
      (" " : String) ≠ "" ∧ (" " : String) ≠ "" ∧
      (handlerReached ⟨" ", " "⟩ = true ∧
        ((step (⟨" ", " "⟩ : LoginFormState) Event.clickSubmit).2.filter
            isForwardAuth = [Effect.forwardAuth " " " "])) :=
  ⟨by decide, by decide, by decide, by decide,
    whitespace_passes_required " " " " (by decide) (by decide) (by decide)
      (by decide)⟩

end Login
